import Mathlib

/-!
# Verification of `cocos/3d/assets/mesh.ts`

A shallow embedding of the mesh asset module: the structural descriptors
(`IBufferRange`, `IVertexBundle`, `IPrimitive`, `IMeshStruct`), the
merge/validation algorithm (`Mesh.merge`, `Mesh.validateMergingMesh`), the
deferred GPU materialization pipeline (`Mesh._deferredInit`,
`Mesh._createVertexBuffers`), and `RenderingMesh.destroy`.

Modelling conventions:
* TS `number` fields that hold unsigned integers (offsets, lengths, counts,
  enum values such as `GFXPrimitiveMode`, `GFXFormat`, `IndexUnit`) become
  `Nat`; `Vec3` components become `Int` (the merge algorithm only takes
  component-wise `max`/`min`).
* The JS float division `data.length / verticesCount` used for the vertex
  buffer stride becomes `jsDiv`, returning `none` for the non-finite result
  (`Infinity`/`NaN`) produced when `verticesCount = 0`.
* The GPU device is an external collaborator; it is modelled by a predicate
  `device : Nat → Bool` telling whether the k-th `createBuffer` call of a
  run succeeds.  GPU buffers are identified by their creation index and the
  side effects (created buffers, uploads, destroys) are accumulated in an
  explicit `GfxState`.
* A thrown JS exception (device allocation error, `RangeError` from a typed
  array constructor, `TypeError` from an `undefined` property access)
  is modelled by an error value that aborts the rest of the computation,
  exactly where the source would throw; the `GfxState` reached at the throw
  point is kept, since the side effects up to that point have happened.
* The byte buffer backing a mesh is modelled by its `byteLength` only: the
  materialization pipeline never inspects byte contents, it only slices
  views out of the buffer (recorded as `ArrayView` values: element kind,
  byte offset, element count, with the typed-array constructor's bounds and
  alignment checks).
-/

/-- `IBufferRange` from `utils/buffer-range`: a byte-granular slice. -/
structure IBufferRange where
  offset : Nat
  length : Nat
deriving Repr, DecidableEq, Inhabited

/-- `IGFXAttribute`: opaque to this module beyond its `format` field, the only
field `validateMergingMesh` compares. -/
structure IGFXAttribute where
  format : Nat
deriving Repr, DecidableEq, Inhabited

/-- `IVertexBundle`. -/
structure IVertexBundle where
  data : IBufferRange
  verticesCount : Nat
  attributes : List IGFXAttribute
deriving Repr, DecidableEq, Inhabited

/-- `IndexUnit` is a TS numeric enum (`UINT8 = 0`, `UINT16 = 1`,
`UINT32 = 2`); any other number is representable, which is why the source's
`getIndexUnitStride`/`getIndexUnitCtor` carry a default branch. -/
abbrev IndexUnit := Nat

def IndexUnit.UINT8 : IndexUnit := 0
def IndexUnit.UINT16 : IndexUnit := 1
def IndexUnit.UINT32 : IndexUnit := 2

/-- `getIndexUnitStride`: byte stride of an index unit, defaulting to 1. -/
def getIndexUnitStride (indexUnit : IndexUnit) : Nat :=
  if indexUnit = IndexUnit.UINT8 then 1
  else if indexUnit = IndexUnit.UINT16 then 2
  else if indexUnit = IndexUnit.UINT32 then 4
  else 1

/-- The `indices` field of a primitive. -/
structure PrimIndices where
  range : IBufferRange
  indexUnit : IndexUnit
deriving Repr, DecidableEq, Inhabited

/-- The `geometricInfo` field of a primitive (its declarative part; the
materializer later attaches `positions`/`indices` views to it). -/
structure PrimGeometricInfo where
  doubleSided : Option Bool
  range : IBufferRange
deriving Repr, DecidableEq, Inhabited

/-- `IPrimitive`.  The source spells the field `vertexBundelIndices` (sic). -/
structure IPrimitive where
  vertexBundelIndices : List Nat
  primitiveMode : Nat
  indices : Option PrimIndices
  geometricInfo : Option PrimGeometricInfo
deriving Repr, DecidableEq, Inhabited

/-- `Vec3` (only `x`/`y`/`z` and `max`/`min` are used by this module). -/
structure Vec3 where
  x : Int
  y : Int
  z : Int
deriving Repr, DecidableEq, Inhabited

/-- `IMeshStruct`. -/
structure IMeshStruct where
  vertexBundles : List IVertexBundle
  primitives : List IPrimitive
  minPosition : Option Vec3
  maxPosition : Option Vec3
deriving Repr, DecidableEq, Inhabited

/-! ## `Mesh.validateMergingMesh`

The source is a sequence of early-`return false` loops over `this._struct`
and `mesh._struct`; each position-wise loop runs under the corresponding
length-equality check, so it is expressed as a recursive walk over the two
lists in lockstep (stopping when either runs out, which under the length
check never happens before both do). -/

/-- The inner attribute loop of `validateMergingMesh`:
`bundle.attributes[j].format !== dstBundle.attributes[j].format → false`. -/
def formatsMatch : List IGFXAttribute → List IGFXAttribute → Bool
  | attr :: rest, dstAttr :: dstRest =>
    attr.format == dstAttr.format && formatsMatch rest dstRest
  | _, _ => true

/-- The attribute check of `validateMergingMesh` for one bundle pair: same
attribute count and identical `format`s position-wise. -/
def bundleCompatible (bundle dstBundle : IVertexBundle) : Bool :=
  bundle.attributes.length == dstBundle.attributes.length &&
  formatsMatch bundle.attributes dstBundle.attributes

/-- The bundle loop of `validateMergingMesh`. -/
def bundlesCompatible : List IVertexBundle → List IVertexBundle → Bool
  | bundle :: rest, dstBundle :: dstRest =>
    bundleCompatible bundle dstBundle && bundlesCompatible rest dstRest
  | _, _ => true

/-- The inner `vertexBundelIndices` loop of `validateMergingMesh`. -/
def natListMatch : List Nat → List Nat → Bool
  | x :: rest, y :: dstRest => x == y && natListMatch rest dstRest
  | _, _ => true

/-- The per-primitive check of `validateMergingMesh`: same
`vertexBundelIndices` (length and values), same `primitiveMode`, and — only
when both primitives carry `indices` — the same `indexUnit`. -/
def primCompatible (prim dstPrim : IPrimitive) : Bool :=
  prim.vertexBundelIndices.length == dstPrim.vertexBundelIndices.length &&
  natListMatch prim.vertexBundelIndices dstPrim.vertexBundelIndices &&
  prim.primitiveMode == dstPrim.primitiveMode &&
  (match prim.indices, dstPrim.indices with
   | some i, some di => i.indexUnit == di.indexUnit
   | _, _ => true)

/-- The primitive loop of `validateMergingMesh`. -/
def primsCompatible : List IPrimitive → List IPrimitive → Bool
  | prim :: rest, dstPrim :: dstRest =>
    primCompatible prim dstPrim && primsCompatible rest dstRest
  | _, _ => true

/-- `Mesh.validateMergingMesh` (it reads only the two `_struct`s). -/
def validateMergingMesh (a b : IMeshStruct) : Bool :=
  a.vertexBundles.length == b.vertexBundles.length &&
  bundlesCompatible a.vertexBundles b.vertexBundles &&
  a.primitives.length == b.primitives.length &&
  primsCompatible a.primitives b.primitives

/-! ## `Mesh.merge`

The source mutates `this._struct` in place, looping over `this`'s lists and
indexing `mesh._struct`'s lists at the same position; when `mesh`'s list is
shorter the access yields `undefined` and the next property read throws a
`TypeError`.  The embedding returns the new `a`-struct, with `none`
modelling that throw.  (`b` is only ever read.)  The JS mutation is
per-field, so a crash mid-loop would leave `a` partially updated; no claim
exercises that path and the embedding discards the partial state. -/

/-- One iteration of the vertex-bundle merge loop:
`bundle.data.length += dstBundle.data.length;
 bundle.verticesCount += dstBundle.verticesCount`. -/
def mergeBundle (bundle dstBundle : IVertexBundle) : IVertexBundle :=
  { bundle with
    data := { bundle.data with length := bundle.data.length + dstBundle.data.length }
    verticesCount := bundle.verticesCount + dstBundle.verticesCount }

/-- The vertex-bundle merge loop; `none` models the `TypeError` thrown when
`mesh`'s bundle list is shorter than `this`'s. -/
def mergeBundles : List IVertexBundle → List IVertexBundle →
    Option (List IVertexBundle)
  | [], _ => some []
  | bundle :: rest, dstBundle :: dstRest =>
    (mergeBundles rest dstRest).map (fun tl => mergeBundle bundle dstBundle :: tl)
  | _ :: _, [] => none

/-- One iteration of the primitive merge loop: when both primitives carry
`indices`, `prim.indices.range.length += dstPrim.indices.range.length`. -/
def mergePrim (prim dstPrim : IPrimitive) : IPrimitive :=
  match prim.indices, dstPrim.indices with
  | some i, some di =>
    let newRange : IBufferRange :=
      { i.range with length := i.range.length + di.range.length }
    { prim with indices := some { i with range := newRange } }
  | _, _ => prim

/-- The primitive merge loop; `none` models the `TypeError` thrown when
`mesh`'s primitive list is shorter than `this`'s. -/
def mergePrims : List IPrimitive → List IPrimitive → Option (List IPrimitive)
  | [], _ => some []
  | prim :: rest, dstPrim :: dstRest =>
    (mergePrims rest dstRest).map (fun tl => mergePrim prim dstPrim :: tl)
  | _ :: _, [] => none

/-- Component-wise maximum, as in the `maxPosition` merge. -/
def vec3Max (a b : Vec3) : Vec3 :=
  ⟨max a.x b.x, max a.y b.y, max a.z b.z⟩

/-- Component-wise minimum, as in the `minPosition` merge. -/
def vec3Min (a b : Vec3) : Vec3 :=
  ⟨min a.x b.x, min a.y b.y, min a.z b.z⟩

/-- The bounding-box merge of `maxPosition`: mutated only when both structs
have one. -/
def mergeMaxPosition (a b : Option Vec3) : Option Vec3 :=
  match a, b with
  | some av, some bv => some (vec3Max av bv)
  | _, _ => a

/-- The bounding-box merge of `minPosition`: mutated only when both structs
have one. -/
def mergeMinPosition (a b : Option Vec3) : Option Vec3 :=
  match a, b with
  | some av, some bv => some (vec3Min av bv)
  | _, _ => a

/-- `Mesh.merge(mesh, validate?)` on the two `_struct`s.  The result is
`none` for a thrown `TypeError`, `some (false, a)` for the early
`return false` (validation requested and failed, `a` untouched), and
`some (true, a')` with the mutated struct otherwise.  `validate` is the
optional TS parameter; the source's guard is
`validate !== undefined && validate`. -/
def merge (a b : IMeshStruct) (validate : Option Bool) :
    Option (Bool × IMeshStruct) :=
  if validate == some true && !(validateMergingMesh a b) then
    some (false, a)
  else
    match mergeBundles a.vertexBundles b.vertexBundles with
    | none => none
    | some vbs =>
      match mergePrims a.primitives b.primitives with
      | none => none
      | some prims =>
        some (true,
          { vertexBundles := vbs
            primitives := prims
            minPosition := mergeMinPosition a.minPosition b.minPosition
            maxPosition := mergeMaxPosition a.maxPosition b.maxPosition })

/-! ## The GPU side: buffers, typed-array views, effect state -/

/-- The JS division `a / b` on unsigned integers: `none` is the non-finite
result (`Infinity` or `NaN`) of dividing by zero. -/
def jsDiv (a b : Nat) : Option ℚ :=
  if b = 0 then none else some ((a : ℚ) / (b : ℚ))

/-- Whether a `createBuffer` call is for a vertex or an index buffer
(usage `VERTEX | TRANSFER_DST` resp. `INDEX | TRANSFER_DST`; the numeric
`GFXBufferUsageBit` values live outside this module). -/
inductive BufKind where
  | vertex
  | index
deriving Repr, DecidableEq

/-- Element type of a typed-array view (`Uint8Array`, `Uint16Array`,
`Uint32Array`, `Float32Array`). -/
inductive ViewKind where
  | u8
  | u16
  | u32
  | f32
deriving Repr, DecidableEq

/-- `BYTES_PER_ELEMENT` of a view kind. -/
def ViewKind.elemSize : ViewKind → Nat
  | .u8 => 1
  | .u16 => 2
  | .u32 => 4
  | .f32 => 4

/-- `getIndexUnitCtor`: the typed-array constructor for an index unit,
defaulting to `Uint8Array`. -/
def getIndexUnitCtor (indexUnit : IndexUnit) : ViewKind :=
  if indexUnit = IndexUnit.UINT8 then .u8
  else if indexUnit = IndexUnit.UINT16 then .u16
  else if indexUnit = IndexUnit.UINT32 then .u32
  else .u8

/-- A typed-array view over the backing `ArrayBuffer`: element kind, byte
offset and element count.  (Contents are not modelled; a view determines
the byte slice it denotes.) -/
structure ArrayView where
  kind : ViewKind
  offset : Nat
  count : Nat
deriving Repr, DecidableEq

/-- Errors thrown during materialization: a device allocation failure, a
`RangeError` from a typed-array constructor (view outside the buffer or
misaligned offset), or a `TypeError` from reading a property of
`undefined`. -/
inductive MatError where
  | deviceError
  | rangeError
  | typeError
deriving Repr, DecidableEq

/-- `new TypedArray(buffer, byteOffset, length)`: throws a `RangeError`
unless `byteOffset` is a multiple of the element size and the view fits in
the buffer.  (A fractional `length` argument is truncated by `ToIndex`;
callers below pass `Nat` division, which matches.) -/
def mkView (kind : ViewKind) (bufferSize offset count : Nat) :
    Except MatError ArrayView :=
  if offset % kind.elemSize = 0 ∧ offset + count * kind.elemSize ≤ bufferSize then
    Except.ok ⟨kind, offset, count⟩
  else
    Except.error MatError.rangeError

/-- A GPU buffer created through `GFXDevice.createBuffer`, identified by its
creation index, with the info the source passes. -/
structure CreatedBuf where
  id : Nat
  kind : BufKind
  size : Nat
  stride : Option ℚ
deriving Repr, DecidableEq

/-- The observable state of the GPU device collaborator: which
`createBuffer` calls succeed (by call index), and the accumulated effect
log (buffers created, uploads performed, buffers destroyed). -/
structure GfxState where
  device : Nat → Bool
  nextId : Nat
  created : List CreatedBuf
  updated : List (Nat × ArrayView)
  destroyed : List Nat

/-- `GFXDevice.createBuffer`: fails (throws) when the device rejects this
call; on success, returns the new buffer's id and logs the creation. -/
def createBuffer (kind : BufKind) (size : Nat) (stride : Option ℚ)
    (st : GfxState) : Except (MatError × GfxState) (Nat × GfxState) :=
  if st.device st.nextId then
    Except.ok (st.nextId,
      { st with
        nextId := st.nextId + 1
        created := st.created ++ [⟨st.nextId, kind, size, stride⟩] })
  else
    Except.error (MatError.deviceError, st)

/-- `GFXBuffer.update`: logs the upload of a view into a buffer. -/
def updateBuffer (id : Nat) (view : ArrayView) (st : GfxState) : GfxState :=
  { st with updated := st.updated ++ [(id, view)] }

/-! ## `RenderingMesh` -/

/-- The `geometricInfo` of a rendering submesh after materialization: the
source mutates `prim.geometricInfo` in place, attaching the decoded
`indices` view (or `null`) and the `positions` `Float32Array` view. -/
structure IGeometricInfo where
  doubleSided : Option Bool
  range : IBufferRange
  indices : Option ArrayView
  positions : ArrayView
deriving Repr, DecidableEq

/-- `IRenderingSubmesh`: buffer fields hold (non-owning) references to GPU
buffers by id; a `vertexBundelIndices` entry out of range of the vertex
buffer list yields `undefined`, modelled by `none`. -/
structure IRenderingSubmesh where
  vertexBuffers : List (Option Nat)
  indexBuffer : Option Nat
  attributes : List IGFXAttribute
  primitiveMode : Nat
  geometricInfo : Option IGeometricInfo
deriving Repr, DecidableEq

/-- `RenderingMesh`: owns its submesh list and the GPU vertex/index buffer
lists. -/
structure RenderingMesh where
  subMeshes : List IRenderingSubmesh
  vertexBuffers : List Nat
  indexBuffers : List Nat
deriving Repr, DecidableEq

/-- `RenderingMesh.destroy`: destroys every vertex buffer, then every index
buffer, then empties all three lists.  The first component is the object's
state after the call; the second is the list of `GFXBuffer.destroy` calls
it issued, in order. -/
def RenderingMesh.destroy (rm : RenderingMesh) : RenderingMesh × List Nat :=
  (⟨[], [], []⟩, rm.vertexBuffers ++ rm.indexBuffers)

/-! ## The deferred-initialization pipeline -/

/-- `Mesh._createVertexBuffers`: for each vertex bundle in order, allocate a
GPU vertex buffer of size `data.length` and stride
`data.length / verticesCount`, then upload the `Uint8Array` view
`(buffer, data.offset, data.length)`.  The view construction (and hence its
`RangeError`) happens after the bundle's `createBuffer` call. -/
def createVertexBuffers (bufferSize : Nat) :
    List IVertexBundle → GfxState →
    Except (MatError × GfxState) (List Nat × GfxState)
  | [], st => Except.ok ([], st)
  | vertexBundle :: rest, st =>
    match createBuffer BufKind.vertex vertexBundle.data.length
        (jsDiv vertexBundle.data.length vertexBundle.verticesCount) st with
    | Except.error e => Except.error e
    | Except.ok (id, st1) =>
      match mkView ViewKind.u8 bufferSize vertexBundle.data.offset
          vertexBundle.data.length with
      | Except.error err => Except.error (err, st1)
      | Except.ok view =>
        match createVertexBuffers bufferSize rest (updateBuffer id view st1) with
        | Except.error e => Except.error e
        | Except.ok (ids, st2) => Except.ok (id :: ids, st2)

/-- The `if (prim.indices) { ... }` block of the per-primitive loop:
allocate the GPU index buffer (size `indices.range.length`, stride
`getIndexUnitStride(indexUnit)`), decode the element view from the backing
buffer and upload it.  Returns the index-buffer id and the decoded view
(both absent when the primitive carries no `indices`). -/
def indexStep (bufferSize : Nat) (prim : IPrimitive) (st : GfxState) :
    Except (MatError × GfxState) ((Option Nat × Option ArrayView) × GfxState) :=
  match prim.indices with
  | none => Except.ok ((none, none), st)
  | some indices =>
    match createBuffer BufKind.index indices.range.length
        (some ((getIndexUnitStride indices.indexUnit : Nat) : ℚ)) st with
    | Except.error e => Except.error e
    | Except.ok (id, st1) =>
      match mkView (getIndexUnitCtor indices.indexUnit) bufferSize
          indices.range.offset
          (indices.range.length / getIndexUnitStride indices.indexUnit) with
      | Except.error err => Except.error (err, st1)
      | Except.ok ib => Except.ok ((some id, some ib), updateBuffer id ib st1)

/-- The attribute-resolution block of the per-primitive loop:
`let gfxAttributes = []; if (length > 0) { gfxAttributes =
this._struct.vertexBundles[idx].attributes }` — reading `.attributes` of
`undefined` (bundle index out of range) throws a `TypeError`. -/
def attrStep (bundles : List IVertexBundle) (prim : IPrimitive)
    (st2 : GfxState) : Except (MatError × GfxState) (List IGFXAttribute) :=
  if 0 < prim.vertexBundelIndices.length then
    match bundles.get? (prim.vertexBundelIndices.headD 0) with
    | none => Except.error (MatError.typeError, st2)
    | some vertexBundle => Except.ok vertexBundle.attributes
  else Except.ok []

/-- The `if (geomInfo) { ... }` block of the per-primitive loop: attach the
decoded index view and the `Float32Array` positions view
`(buffer, range.offset, range.length / 4)`. -/
def geomStep (bufferSize : Nat) (prim : IPrimitive) (ib : Option ArrayView)
    (st2 : GfxState) : Except (MatError × GfxState) (Option IGeometricInfo) :=
  match prim.geometricInfo with
  | none => Except.ok none
  | some geomInfo =>
    match mkView ViewKind.f32 bufferSize geomInfo.range.offset
        (geomInfo.range.length / 4) with
    | Except.error err => Except.error (err, st2)
    | Except.ok positions =>
      Except.ok (some ⟨geomInfo.doubleSided, geomInfo.range, ib, positions⟩)

/-- The body of the per-primitive loop of `Mesh._deferredInit`, after the
empty-`vertexBundelIndices` skip: run `indexStep`, resolve vertex-buffer
references, take the first referenced bundle's attribute list, attach
geometric-info views, and build the submesh. -/
def processPrim (bundles : List IVertexBundle) (bufferSize : Nat)
    (vertexBuffers : List Nat) (prim : IPrimitive) (st : GfxState) :
    Except (MatError × GfxState) ((Option Nat × IRenderingSubmesh) × GfxState) :=
  match indexStep bufferSize prim st with
  | Except.error e => Except.error e
  | Except.ok ((indexBuffer, ib), st2) =>
    match attrStep bundles prim st2 with
    | Except.error e => Except.error e
    | Except.ok gfxAttributes =>
      match geomStep bufferSize prim ib st2 with
      | Except.error e => Except.error e
      | Except.ok geometricInfo =>
        Except.ok ((indexBuffer,
          { primitiveMode := prim.primitiveMode
            vertexBuffers := prim.vertexBundelIndices.map
              (fun i => vertexBuffers.get? i)
            indexBuffer := indexBuffer
            attributes := gfxAttributes
            geometricInfo := geometricInfo }), st2)

/-- The per-primitive loop of `Mesh._deferredInit`: skip primitives with an
empty `vertexBundelIndices`, run `processPrim` on the rest, and accumulate
the index-buffer id list and the submesh list, in order. -/
def processPrimitives (bundles : List IVertexBundle) (bufferSize : Nat)
    (vertexBuffers : List Nat) :
    List IPrimitive → GfxState →
    Except (MatError × GfxState) ((List Nat × List IRenderingSubmesh) × GfxState)
  | [], st => Except.ok (([], []), st)
  | prim :: rest, st =>
    if prim.vertexBundelIndices.length = 0 then
      processPrimitives bundles bufferSize vertexBuffers rest st
    else
      match processPrim bundles bufferSize vertexBuffers prim st with
      | Except.error e => Except.error e
      | Except.ok ((indexBuffer, subMesh), st2) =>
        match processPrimitives bundles bufferSize vertexBuffers rest st2 with
        | Except.error e => Except.error e
        | Except.ok ((ibs, submeshes), st3) =>
          Except.ok
            (((match indexBuffer with
               | some id => id :: ibs
               | none => ibs),
              subMesh :: submeshes), st3)

/-- The `Mesh` asset's state: its struct, its byte buffer (modelled by the
underlying `ArrayBuffer`'s byte length, `none` when `_data === null`), the
`_initialized` guard flag, and the cached `RenderingMesh`. -/
structure Mesh where
  struct : IMeshStruct
  data : Option Nat
  initialized : Bool
  renderingMesh : Option RenderingMesh

/-- The outcome of one call into the mesh: its state afterwards, the thrown
error if any (`_initialized` has already been set when a materialization
error is thrown), and the GPU state afterwards. -/
structure InitResult where
  mesh : Mesh
  error : Option MatError
  gfx : GfxState

/-- The buffer-building part of `Mesh._deferredInit`: create the vertex
buffers, process the primitives, and assemble the `RenderingMesh` from the
submesh, vertex-buffer and index-buffer lists, in allocation order. -/
def deferredInitCore (struct : IMeshStruct) (bufferSize : Nat)
    (st : GfxState) :
    Except (MatError × GfxState) (RenderingMesh × GfxState) :=
  match createVertexBuffers bufferSize struct.vertexBundles st with
  | Except.error e => Except.error e
  | Except.ok (vertexBuffers, st1) =>
    match processPrimitives struct.vertexBundles bufferSize vertexBuffers
        struct.primitives st1 with
    | Except.error e => Except.error e
    | Except.ok ((indexBuffers, submeshes), st2) =>
      Except.ok (⟨submeshes, vertexBuffers, indexBuffers⟩, st2)

/-- `Mesh._deferredInit`: no-op when `_initialized`; otherwise set the flag,
return early when `_data === null`, and run the buffer-building pipeline.
When the pipeline throws, the flag stays set and no `RenderingMesh` is
stored. -/
def Mesh.deferredInit (m : Mesh) (st : GfxState) : InitResult :=
  if m.initialized then ⟨m, none, st⟩
  else
    let m1 : Mesh := { m with initialized := true }
    match m.data with
    | none => ⟨m1, none, st⟩
    | some bufferSize =>
      match deferredInitCore m.struct bufferSize st with
      | Except.error (e, st') => ⟨m1, some e, st'⟩
      | Except.ok (rm, st2) => ⟨{ m1 with renderingMesh := some rm }, none, st2⟩

/-- The `renderingMesh` accessor: runs `_deferredInit`, then returns
`this._renderingMesh!` — which is in fact `null` (here `none`) when the
mesh had no data. -/
def Mesh.renderingMeshGet (m : Mesh) (st : GfxState) :
    InitResult × Option RenderingMesh :=
  let r := m.deferredInit st
  (r, r.mesh.renderingMesh)

/-- `Mesh._tryDestroyRenderingMesh`: only when a `RenderingMesh` exists does
it destroy it, null the cache, and reset `_initialized`. -/
def Mesh.tryDestroyRenderingMesh (m : Mesh) (st : GfxState) : Mesh × GfxState :=
  match m.renderingMesh with
  | some rm =>
    let d := rm.destroy
    ({ m with renderingMesh := none, initialized := false },
     { st with destroyed := st.destroyed ++ d.2 })
  | none => (m, st)

/-- `Mesh.assign(struct, data)`: replace `_struct` and `_data`, then
`_tryDestroyRenderingMesh()`. -/
def Mesh.assign (m : Mesh) (struct : IMeshStruct) (data : Nat)
    (st : GfxState) : Mesh × GfxState :=
  Mesh.tryDestroyRenderingMesh { m with struct := struct, data := some data } st

/-! ## Concrete example inputs (used by witnesses and counterexamples) -/

/-- An attribute with some fixed format. -/
def exAttr : IGFXAttribute := ⟨7⟩

/-- The spec's numeric example, `a` side: `{length:100, verticesCount:10}`. -/
def exBundleA : IVertexBundle := ⟨⟨0, 100⟩, 10, [exAttr]⟩

/-- The spec's numeric example, `b` side: `{length:50, verticesCount:5}`. -/
def exBundleB : IVertexBundle := ⟨⟨100, 50⟩, 5, [exAttr]⟩

/-- An indexed primitive over bundle 0 (`a` side). -/
def exPrimA : IPrimitive := ⟨[0], 3, some ⟨⟨150, 30⟩, IndexUnit.UINT16⟩, none⟩

/-- An indexed primitive over bundle 0 (`b` side). -/
def exPrimB : IPrimitive := ⟨[0], 3, some ⟨⟨180, 12⟩, IndexUnit.UINT16⟩, none⟩

/-- A complete merge-compatible struct, `a` side, with the spec's bounding
box example `a.max = (1,2,3)`. -/
def exStructA : IMeshStruct :=
  ⟨[exBundleA], [exPrimA], some ⟨-1, -2, -3⟩, some ⟨1, 2, 3⟩⟩

/-- A complete merge-compatible struct, `b` side, with the spec's bounding
box example `b.max = (4,0,5)`. -/
def exStructB : IMeshStruct :=
  ⟨[exBundleB], [exPrimB], some ⟨0, -5, 1⟩, some ⟨4, 0, 5⟩⟩

/-- A struct with two vertex bundles (the spec's validation-failure
example). -/
def exStructTwoBundles : IMeshStruct :=
  ⟨[exBundleA, exBundleA], [], none, none⟩

/-- A struct with one vertex bundle (the spec's validation-failure
example). -/
def exStructOneBundle : IMeshStruct :=
  ⟨[exBundleA], [], none, none⟩

/-- The outcome a successful `merge(a, b)` is claimed to produce, stated in
the claim's own words (each of `a`'s vertex bundles gains `b`'s
`data.length` and `verticesCount`; each primitive pair where both carry
`indices` gains `b`'s `indices.range.length` into `a`'s, other primitives
are untouched; `maxPosition`/`minPosition` become the component-wise
max/min against `b`'s, only where both meshes have them). -/
def MergeOutcome (a b merged : IMeshStruct) : Prop :=
  merged.vertexBundles.length = a.vertexBundles.length ∧
  (∀ i, i < a.vertexBundles.length →
    (merged.vertexBundles.getD i default).data.length
        = (a.vertexBundles.getD i default).data.length
          + (b.vertexBundles.getD i default).data.length ∧
    (merged.vertexBundles.getD i default).verticesCount
        = (a.vertexBundles.getD i default).verticesCount
          + (b.vertexBundles.getD i default).verticesCount) ∧
  merged.primitives.length = a.primitives.length ∧
  (∀ i, i < a.primitives.length →
    (∀ pi di, (a.primitives.getD i default).indices = some pi →
      (b.primitives.getD i default).indices = some di →
      ∃ ci, (merged.primitives.getD i default).indices = some ci ∧
        ci.range.length = pi.range.length + di.range.length ∧
        ci.range.offset = pi.range.offset ∧
        ci.indexUnit = pi.indexUnit) ∧
    ((a.primitives.getD i default).indices = none ∨
        (b.primitives.getD i default).indices = none →
      merged.primitives.getD i default = a.primitives.getD i default)) ∧
  (∀ av bv, a.maxPosition = some av → b.maxPosition = some bv →
    merged.maxPosition = some (vec3Max av bv)) ∧
  (a.maxPosition = none ∨ b.maxPosition = none →
    merged.maxPosition = a.maxPosition) ∧
  (∀ av bv, a.minPosition = some av → b.minPosition = some bv →
    merged.minPosition = some (vec3Min av bv)) ∧
  (a.minPosition = none ∨ b.minPosition = none →
    merged.minPosition = a.minPosition)

/-- The `GfxState` a pipeline step ends in, whether it returned or threw. -/
def exceptState {α : Type} :
    Except (MatError × GfxState) (α × GfxState) → GfxState
  | Except.ok (_, st) => st
  | Except.error (_, st) => st

/-- A buffer range fits in a backing buffer of the given byte length. -/
def rangeInBounds (bufferSize : Nat) (range : IBufferRange) : Prop :=
  range.offset + range.length ≤ bufferSize

instance (bufferSize : Nat) (range : IBufferRange) :
    Decidable (rangeInBounds bufferSize range) :=
  inferInstanceAs (Decidable (_ ≤ _))

/-- A device on which every `createBuffer` call succeeds. -/
def devAll : Nat → Bool := fun _ => true

/-- A device on which only the first `createBuffer` call succeeds. -/
def devFirstOnly : Nat → Bool := fun k => k == 0

/-- A fresh GPU effect state over the given device. -/
def initialGfx (device : Nat → Bool) : GfxState := ⟨device, 0, [], [], []⟩

/-- A 16-byte vertex bundle at offset 0 with 4 vertices. -/
def bundle16 : IVertexBundle := ⟨⟨0, 16⟩, 4, []⟩

/-- A 16-byte vertex bundle at offset 16 with 4 vertices. -/
def bundle16b : IVertexBundle := ⟨⟨16, 16⟩, 4, []⟩

/-- A mesh with no byte buffer (`_data === null`). -/
def meshNoData : Mesh := ⟨⟨[], [], none, none⟩, none, false, none⟩

/-- A small valid struct: one bundle, no primitives. -/
def exStructSimple : IMeshStruct := ⟨[bundle16], [], none, none⟩

/-- C3 trace, step 1: access `renderingMesh` on a buffer-less mesh (this
sets `_initialized` without producing a `RenderingMesh`). -/
def c3Step1 : InitResult := meshNoData.deferredInit (initialGfx devAll)

/-- C3 trace, step 2: `assign` a real struct/buffer pair to that mesh. -/
def c3Assigned : Mesh × GfxState :=
  c3Step1.mesh.assign exStructSimple 64 c3Step1.gfx

/-- C3 trace, step 3: access `renderingMesh` again after the `assign`. -/
def c3Access : InitResult × Option RenderingMesh :=
  (c3Assigned.1).renderingMeshGet c3Assigned.2

/-- The same struct/buffer pair given to a fresh mesh (what C3 claims the
post-`assign` access should behave like). -/
def freshMesh : Mesh := ⟨exStructSimple, some 64, false, none⟩

/-- A primitive that carries `indices` but has an empty
`vertexBundelIndices` list. -/
def primIndexedEmptyVBI : IPrimitive :=
  ⟨[], 3, some ⟨⟨0, 4⟩, IndexUnit.UINT16⟩, none⟩

/-- C1 counterexample mesh: one bundle, one indexed primitive whose
`vertexBundelIndices` is empty. -/
def c1Mesh : Mesh :=
  ⟨⟨[bundle16], [primIndexedEmptyVBI], none, none⟩, some 16, false, none⟩

/-- C2 counterexample mesh: a single bundle whose range `[0, 10)` exceeds
the 4-byte backing buffer. -/
def c2MeshBad : Mesh :=
  ⟨⟨[⟨⟨0, 10⟩, 1, []⟩], [], none, none⟩, some 4, false, none⟩

/-- C2 counterexample mesh: `verticesCount = 0` with `data.length = 4`. -/
def c2MeshZeroVC : Mesh :=
  ⟨⟨[⟨⟨0, 4⟩, 0, []⟩], [], none, none⟩, some 4, false, none⟩

/-- C4 mesh: two in-bounds bundles (so a device that fails on the second
`createBuffer` call fails mid-pass). -/
def c4Mesh : Mesh :=
  ⟨⟨[bundle16, bundle16b], [], none, none⟩, some 32, false, none⟩

/-- A primitive with empty `vertexBundelIndices` and no indices. -/
def primEmptyVBIPlain : IPrimitive := ⟨[], 4, none, none⟩

/-- An indexed renderable primitive over bundle 0. -/
def primIndexed : IPrimitive :=
  ⟨[0], 3, some ⟨⟨16, 8⟩, IndexUnit.UINT16⟩, none⟩

/-- A non-indexed renderable primitive over bundle 0. -/
def primPlain : IPrimitive := ⟨[0], 5, none, none⟩

/-- C1/C7 witness mesh: one bundle; one skipped, one indexed and one
non-indexed primitive. -/
def cpMesh : Mesh :=
  ⟨⟨[bundle16], [primEmptyVBIPlain, primIndexed, primPlain], none, none⟩,
   some 32, false, none⟩

/-- The per-primitive loop's skip condition, as a predicate: the primitive
is processed (not skipped) iff its `vertexBundelIndices` is non-empty. -/
def isRenderable (prim : IPrimitive) : Bool :=
  prim.vertexBundelIndices.length != 0

/-- A primitive that is processed and carries `indices` (these are exactly
the primitives for which the loop allocates a GPU index buffer). -/
def isIndexedRenderable (prim : IPrimitive) : Bool :=
  isRenderable prim && prim.indices.isSome

/-! ## Helper lemmas on the validation checks -/

theorem natBeqSwap (x y : Nat) : (x == y) = (y == x) := by
  by_cases h : x = y
  · subst h
    rfl
  · have h1 : (x == y) = false := by
      simpa using h
    have h2 : (y == x) = false := by
      simpa using fun e => h e.symm
    rw [h1, h2]

theorem formatsMatch_self : ∀ attrs : List IGFXAttribute,
    formatsMatch attrs attrs = true
  | [] => rfl
  | attr :: rest => by
    simp [formatsMatch, formatsMatch_self rest]

theorem formatsMatch_symm : ∀ attrs dstAttrs : List IGFXAttribute,
    formatsMatch attrs dstAttrs = formatsMatch dstAttrs attrs
  | [], [] => rfl
  | [], _ :: _ => rfl
  | _ :: _, [] => rfl
  | attr :: rest, dstAttr :: dstRest => by
    simp only [formatsMatch, natBeqSwap attr.format dstAttr.format,
      formatsMatch_symm rest dstRest]

theorem natListMatch_self : ∀ xs : List Nat, natListMatch xs xs = true
  | [] => rfl
  | x :: rest => by
    simp [natListMatch, natListMatch_self rest]

theorem natListMatch_symm : ∀ xs ys : List Nat,
    natListMatch xs ys = natListMatch ys xs
  | [], [] => rfl
  | [], _ :: _ => rfl
  | _ :: _, [] => rfl
  | x :: rest, y :: dstRest => by
    simp only [natListMatch, natBeqSwap x y, natListMatch_symm rest dstRest]

theorem bundleCompatible_self (bundle : IVertexBundle) :
    bundleCompatible bundle bundle = true := by
  simp [bundleCompatible, formatsMatch_self]

theorem primCompatible_self (prim : IPrimitive) :
    primCompatible prim prim = true := by
  unfold primCompatible
  cases prim.indices <;> simp [natListMatch_self]

theorem bundleCompatible_symm (bundle dstBundle : IVertexBundle) :
    bundleCompatible bundle dstBundle = bundleCompatible dstBundle bundle := by
  unfold bundleCompatible
  rw [natBeqSwap bundle.attributes.length dstBundle.attributes.length,
    formatsMatch_symm bundle.attributes dstBundle.attributes]

theorem primCompatible_symm (prim dstPrim : IPrimitive) :
    primCompatible prim dstPrim = primCompatible dstPrim prim := by
  unfold primCompatible
  rw [natBeqSwap prim.vertexBundelIndices.length dstPrim.vertexBundelIndices.length,
    natListMatch_symm prim.vertexBundelIndices dstPrim.vertexBundelIndices,
    natBeqSwap prim.primitiveMode dstPrim.primitiveMode]
  congr 1
  cases prim.indices <;> cases dstPrim.indices <;> simp [natBeqSwap]

theorem bundlesCompatible_self : ∀ bundles : List IVertexBundle,
    bundlesCompatible bundles bundles = true
  | [] => rfl
  | bundle :: rest => by
    simp [bundlesCompatible, bundleCompatible_self,
      bundlesCompatible_self rest]

theorem bundlesCompatible_symm : ∀ bundles dstBundles : List IVertexBundle,
    bundlesCompatible bundles dstBundles = bundlesCompatible dstBundles bundles
  | [], [] => rfl
  | [], _ :: _ => rfl
  | _ :: _, [] => rfl
  | bundle :: rest, dstBundle :: dstRest => by
    simp only [bundlesCompatible, bundleCompatible_symm bundle dstBundle,
      bundlesCompatible_symm rest dstRest]

theorem primsCompatible_self : ∀ prims : List IPrimitive,
    primsCompatible prims prims = true
  | [] => rfl
  | prim :: rest => by
    simp [primsCompatible, primCompatible_self, primsCompatible_self rest]

theorem primsCompatible_symm : ∀ prims dstPrims : List IPrimitive,
    primsCompatible prims dstPrims = primsCompatible dstPrims prims
  | [], [] => rfl
  | [], _ :: _ => rfl
  | _ :: _, [] => rfl
  | prim :: rest, dstPrim :: dstRest => by
    simp only [primsCompatible, primCompatible_symm prim dstPrim,
      primsCompatible_symm rest dstRest]

/-- C9: `validateMergingMesh(a, a)` is always `true` — every check compares a
field of `a` with itself. -/
theorem validateMergingMesh_refl (a : IMeshStruct) :
    validateMergingMesh a a = true := by
  simp [validateMergingMesh, bundlesCompatible_self, primsCompatible_self]

/-- C10: `validateMergingMesh` is symmetric — each of its checks (bundle
counts, attribute formats, primitive counts, `vertexBundelIndices`,
`primitiveMode`, and `indexUnit` compared only when both primitives carry
`indices`) is symmetric in the two structs. -/
theorem validateMergingMesh_symm (a b : IMeshStruct) :
    validateMergingMesh a b = validateMergingMesh b a := by
  unfold validateMergingMesh
  rw [natBeqSwap a.vertexBundles.length b.vertexBundles.length,
    bundlesCompatible_symm a.vertexBundles b.vertexBundles,
    natBeqSwap a.primitives.length b.primitives.length,
    primsCompatible_symm a.primitives b.primitives]

/-! ## `merge` lemmas (C5, C6) -/

theorem validateMergingMesh_lengths {a b : IMeshStruct}
    (h : validateMergingMesh a b = true) :
    a.vertexBundles.length = b.vertexBundles.length ∧
    a.primitives.length = b.primitives.length := by
  simp only [validateMergingMesh, Bool.and_eq_true, beq_iff_eq] at h
  exact ⟨h.1.1.1, h.1.2⟩

theorem mergeBundles_of_le : ∀ (as bs : List IVertexBundle),
    as.length ≤ bs.length →
    mergeBundles as bs = some (List.zipWith mergeBundle as bs)
  | [], _, _ => rfl
  | _ :: _, [], h => absurd h (by simp)
  | a :: as, b :: bs, h => by
    simp [mergeBundles, List.zipWith,
      mergeBundles_of_le as bs (Nat.le_of_succ_le_succ h)]

theorem mergePrims_of_le : ∀ (as bs : List IPrimitive),
    as.length ≤ bs.length →
    mergePrims as bs = some (List.zipWith mergePrim as bs)
  | [], _, _ => rfl
  | _ :: _, [], h => absurd h (by simp)
  | a :: as, b :: bs, h => by
    simp [mergePrims, List.zipWith,
      mergePrims_of_le as bs (Nat.le_of_succ_le_succ h)]

theorem getD_zipWith {α β γ : Type} (f : α → β → γ) (dA : α) (dB : β) (dC : γ) :
    ∀ (as : List α) (bs : List β) (i : Nat), i < as.length → i < bs.length →
      (List.zipWith f as bs).getD i dC = f (as.getD i dA) (bs.getD i dB)
  | [], _, _, h, _ => absurd h (by simp)
  | _ :: _, [], _, _, h => absurd h (by simp)
  | _ :: _, _ :: _, 0, _, _ => rfl
  | a :: as, b :: bs, i + 1, h1, h2 => by
    simp only [List.zipWith, List.getD_cons_succ]
    exact getD_zipWith f dA dB dC as bs i
      (Nat.lt_of_succ_lt_succ h1) (Nat.lt_of_succ_lt_succ h2)

/-- C5: `merge(a, b, validate = true)` with failing validation returns
`false` and performs no mutation: the struct of `a` comes back exactly as it
went in (and `b`, which `merge` only ever reads, is untouched by
construction). -/
theorem merge_validate_failure_no_mutation (a b : IMeshStruct)
    (h : validateMergingMesh a b = false) :
    merge a b (some true) = some (false, a) := by
  simp [merge, h]

/-- Witness for C5, on the spec's example: `a` with two vertex bundles
versus `b` with one. -/
theorem merge_validate_failure_no_mutation_witness :
    validateMergingMesh exStructTwoBundles exStructOneBundle = false ∧
    merge exStructTwoBundles exStructOneBundle (some true)
      = some (false, exStructTwoBundles) :=
  ⟨by decide,
   merge_validate_failure_no_mutation exStructTwoBundles exStructOneBundle
     (by decide)⟩

/-- C6: on structurally compatible structs, `merge` succeeds and mutates `a`
as claimed: bundle `data.length`/`verticesCount` add up, indexed primitive
pairs add `b`'s `indices.range.length` into `a`'s, and the bounding box
becomes the component-wise max/min where both sides have one. -/
theorem merge_valid_updates (a b : IMeshStruct) (validate : Option Bool)
    (h : validateMergingMesh a b = true) :
    ∃ merged, merge a b validate = some (true, merged) ∧
      MergeOutcome a b merged := by
  obtain ⟨hvb, hp⟩ := validateMergingMesh_lengths h
  have hcond : ¬((validate == some true && !(validateMergingMesh a b)) = true) := by
    rw [h]
    simp
  rw [merge, if_neg hcond]
  rw [mergeBundles_of_le a.vertexBundles b.vertexBundles (le_of_eq hvb),
    mergePrims_of_le a.primitives b.primitives (le_of_eq hp)]
  refine ⟨_, rfl, ?_, ?_, ?_, ?_, ?_, ?_, ?_, ?_⟩
  · simp [List.length_zipWith, hvb]
  · intro i hi
    rw [getD_zipWith mergeBundle default default default a.vertexBundles
      b.vertexBundles i hi (hvb ▸ hi)]
    simp [mergeBundle]
  · simp [List.length_zipWith, hp]
  · intro i hi
    rw [getD_zipWith mergePrim default default default a.primitives
      b.primitives i hi (hp ▸ hi)]
    constructor
    · intro pi di hpi hdi
      simp only [mergePrim, hpi, hdi]
      exact ⟨_, rfl, rfl, rfl, rfl⟩
    · intro hnone
      rcases hnone with hn | hn
      · unfold mergePrim
        rw [hn]
      · unfold mergePrim
        rw [hn]
        cases (a.primitives.getD i default).indices <;> rfl
  · intro av bv hav hbv
    simp [mergeMaxPosition, hav, hbv]
  · intro hnone
    rcases hnone with hn | hn
    · simp [mergeMaxPosition, hn]
    · rw [hn]
      unfold mergeMaxPosition
      cases a.maxPosition <;> rfl
  · intro av bv hav hbv
    simp [mergeMinPosition, hav, hbv]
  · intro hnone
    rcases hnone with hn | hn
    · simp [mergeMinPosition, hn]
    · rw [hn]
      unfold mergeMinPosition
      cases a.minPosition <;> rfl

/-- Witness for C6: the spec's numeric example,
`{length:100, verticesCount:10}` merged with `{length:50, verticesCount:5}`
and bounding boxes `(1,2,3)`/`(4,0,5)`. -/
theorem merge_valid_updates_witness :
    validateMergingMesh exStructA exStructB = true ∧
    ∃ merged, merge exStructA exStructB (some true) = some (true, merged) ∧
      MergeOutcome exStructA exStructB merged :=
  ⟨by decide, merge_valid_updates exStructA exStructB (some true) (by decide)⟩

/-! ## `RenderingMesh.destroy` (C8) -/

/-- C8: `destroy` empties the submesh list and both owned buffer lists, and
it is idempotent — a second `destroy` issues no `GFXBuffer.destroy` call at
all (empty effect list) and cannot throw (it is a total function). -/
theorem renderingMesh_destroy_idempotent (rm : RenderingMesh) :
    (rm.destroy.1.subMeshes = [] ∧ rm.destroy.1.vertexBuffers = [] ∧
      rm.destroy.1.indexBuffers = []) ∧
    rm.destroy.1.destroy = (rm.destroy.1, []) := by
  simp [RenderingMesh.destroy]

/-! ## State invariants of the pipeline steps -/

theorem updateBuffer_state (id : Nat) (view : ArrayView) (st : GfxState) :
    (updateBuffer id view st).destroyed = st.destroyed ∧
    (updateBuffer id view st).device = st.device ∧
    (updateBuffer id view st).created = st.created :=
  ⟨rfl, rfl, rfl⟩

theorem createBuffer_ok_state {kind : BufKind} {sz : Nat} {stride : Option ℚ}
    {st : GfxState} {id : Nat} {st1 : GfxState}
    (h : createBuffer kind sz stride st = Except.ok (id, st1)) :
    st1.destroyed = st.destroyed ∧ st1.device = st.device ∧
    st1.created.length = st.created.length + 1 := by
  unfold createBuffer at h
  split at h
  · cases h
    refine ⟨rfl, rfl, ?_⟩
    simp
  · exact Except.noConfusion h

theorem createBuffer_error_state {kind : BufKind} {sz : Nat}
    {stride : Option ℚ} {st : GfxState} {e : MatError} {st1 : GfxState}
    (h : createBuffer kind sz stride st = Except.error (e, st1)) :
    st1 = st := by
  unfold createBuffer at h
  split at h
  · exact Except.noConfusion h
  · cases h
    rfl

theorem createVertexBuffers_ok (n : Nat) :
    ∀ (bundles : List IVertexBundle) (st : GfxState) (ids : List Nat)
      (st1 : GfxState),
      createVertexBuffers n bundles st = Except.ok (ids, st1) →
      ids.length = bundles.length ∧ st1.destroyed = st.destroyed
  | [], st, ids, st1, h => by
    cases h
    exact ⟨rfl, rfl⟩
  | vb :: rest, st, ids, st1, h => by
    unfold createVertexBuffers at h
    split at h
    · exact Except.noConfusion h
    · rename_i cres id stA hc
      split at h
      · exact Except.noConfusion h
      · split at h
        · exact Except.noConfusion h
        · rename_i rres restIds stB hr
          cases h
          obtain ⟨hd, -, -⟩ := createBuffer_ok_state hc
          obtain ⟨hlen, hdr⟩ := createVertexBuffers_ok n rest _ _ _ hr
          refine ⟨by simp [hlen], ?_⟩
          rw [hdr]
          exact hd

theorem createVertexBuffers_error (n : Nat) :
    ∀ (bundles : List IVertexBundle) (st : GfxState) (e : MatError)
      (st1 : GfxState),
      createVertexBuffers n bundles st = Except.error (e, st1) →
      st1.destroyed = st.destroyed
  | [], _, _, _, h => Except.noConfusion h
  | vb :: rest, st, e, st1, h => by
    unfold createVertexBuffers at h
    split at h
    · rename_i cerr hc
      cases h
      rw [createBuffer_error_state hc]
    · rename_i cres id stA hc
      obtain ⟨hd, -, -⟩ := createBuffer_ok_state hc
      split at h
      · cases h
        exact hd
      · split at h
        · rename_i rerr hr
          cases h
          have hrec := createVertexBuffers_error n rest _ _ _ hr
          rw [hrec]
          exact hd
        · exact Except.noConfusion h

theorem indexStep_ok {n : Nat} {prim : IPrimitive} {st : GfxState}
    {ibOpt : Option Nat} {ib : Option ArrayView} {st2 : GfxState}
    (h : indexStep n prim st = Except.ok ((ibOpt, ib), st2)) :
    ibOpt.isSome = prim.indices.isSome ∧ st2.destroyed = st.destroyed := by
  unfold indexStep at h
  split at h
  · rename_i hpi
    cases h
    simp [hpi]
  · rename_i indices hpi
    split at h
    · exact Except.noConfusion h
    · rename_i id stA hc
      split at h
      · exact Except.noConfusion h
      · rename_i view hv
        cases h
        obtain ⟨hd, -, -⟩ := createBuffer_ok_state hc
        exact ⟨by simp [hpi], hd⟩

theorem indexStep_error {n : Nat} {prim : IPrimitive} {st : GfxState}
    {e : MatError} {st1 : GfxState}
    (h : indexStep n prim st = Except.error (e, st1)) :
    st1.destroyed = st.destroyed := by
  unfold indexStep at h
  split at h
  · exact Except.noConfusion h
  · rename_i indices hpi
    split at h
    · rename_i cerr hc
      cases h
      rw [createBuffer_error_state hc]
    · rename_i id stA hc
      obtain ⟨hd, -, -⟩ := createBuffer_ok_state hc
      split at h
      · cases h
        exact hd
      · exact Except.noConfusion h

theorem processPrim_ok {bundles : List IVertexBundle} {n : Nat}
    {vbs : List Nat} {prim : IPrimitive} {st : GfxState}
    {ibOpt : Option Nat} {sub : IRenderingSubmesh} {st2 : GfxState}
    (h : processPrim bundles n vbs prim st = Except.ok ((ibOpt, sub), st2)) :
    sub.primitiveMode = prim.primitiveMode ∧
    ibOpt.isSome = prim.indices.isSome ∧
    st2.destroyed = st.destroyed := by
  unfold processPrim at h
  split at h
  · exact Except.noConfusion h
  · rename_i ibOpt0 ib0 stA hi
    split at h
    · exact Except.noConfusion h
    · rename_i attrs ha
      split at h
      · exact Except.noConfusion h
      · rename_i geo hg
        cases h
        obtain ⟨hsome, hd⟩ := indexStep_ok hi
        exact ⟨rfl, hsome, hd⟩

theorem processPrim_error {bundles : List IVertexBundle} {n : Nat}
    {vbs : List Nat} {prim : IPrimitive} {st : GfxState}
    {e : MatError} {st1 : GfxState}
    (h : processPrim bundles n vbs prim st = Except.error (e, st1)) :
    st1.destroyed = st.destroyed := by
  unfold processPrim at h
  split at h
  · rename_i ierr hi
    cases h
    exact indexStep_error hi
  · rename_i ibOpt0 ib0 stA hi
    obtain ⟨-, hd⟩ := indexStep_ok hi
    split at h
    · rename_i aerr ha
      unfold attrStep at ha
      split at ha
      · split at ha
        · cases ha
          cases h
          exact hd
        · exact Except.noConfusion ha
      · exact Except.noConfusion ha
    · rename_i attrs ha
      split at h
      · rename_i gerr hg
        unfold geomStep at hg
        split at hg
        · exact Except.noConfusion hg
        · split at hg
          · cases hg
            cases h
            exact hd
          · exact Except.noConfusion hg
      · exact Except.noConfusion h

theorem processPrimitives_ok (bundles : List IVertexBundle) (n : Nat)
    (vbs : List Nat) :
    ∀ (prims : List IPrimitive) (st : GfxState) (ibs : List Nat)
      (subs : List IRenderingSubmesh) (st1 : GfxState),
      processPrimitives bundles n vbs prims st = Except.ok ((ibs, subs), st1) →
      subs.map (fun s => s.primitiveMode)
          = (prims.filter isRenderable).map (fun p => p.primitiveMode) ∧
      ibs.length = (prims.filter isIndexedRenderable).length ∧
      st1.destroyed = st.destroyed
  | [], st, ibs, subs, st1, h => by
    cases h
    exact ⟨rfl, rfl, rfl⟩
  | prim :: rest, st, ibs, subs, st1, h => by
    unfold processPrimitives at h
    split at h
    · rename_i hzero
      obtain ⟨h1, h2, h3⟩ :=
        processPrimitives_ok bundles n vbs rest st ibs subs st1 h
      have hren : isRenderable prim = false := by
        simp [isRenderable, hzero]
      have hind : isIndexedRenderable prim = false := by
        simp [isIndexedRenderable, hren]
      refine ⟨?_, ?_, h3⟩
      · simp only [List.filter_cons, hren, Bool.false_eq_true, if_false]
        exact h1
      · simp only [List.filter_cons, hind, Bool.false_eq_true, if_false]
        exact h2
    · rename_i hzero
      have hren : isRenderable prim = true := by
        simp only [isRenderable, bne_iff_ne, ne_eq]
        exact hzero
      split at h
      · exact Except.noConfusion h
      · rename_i ibOpt sub stA hp
        split at h
        · exact Except.noConfusion h
        · rename_i ibs0 subs0 stB hr
          cases h
          obtain ⟨hmode, hsome, hdA⟩ := processPrim_ok hp
          obtain ⟨h1, h2, h3⟩ :=
            processPrimitives_ok bundles n vbs rest _ _ _ _ hr
          refine ⟨?_, ?_, by rw [h3, hdA]⟩
          · simp only [List.filter_cons, hren, if_true, List.map_cons, hmode]
            rw [h1]
          · cases hio : ibOpt with
            | some id =>
              have hps : prim.indices.isSome = true := by
                rw [← hsome, hio]
                rfl
              have hind : isIndexedRenderable prim = true := by
                simp [isIndexedRenderable, hren, hps]
              simp only [List.filter_cons, hind, if_true, List.length_cons]
              rw [h2]
            | none =>
              have hps : prim.indices.isSome = false := by
                rw [← hsome, hio]
                rfl
              have hind : isIndexedRenderable prim = false := by
                simp [isIndexedRenderable, hps]
              simp only [List.filter_cons, hind, Bool.false_eq_true, if_false]
              exact h2

theorem processPrimitives_error (bundles : List IVertexBundle) (n : Nat)
    (vbs : List Nat) :
    ∀ (prims : List IPrimitive) (st : GfxState) (e : MatError)
      (st1 : GfxState),
      processPrimitives bundles n vbs prims st = Except.error (e, st1) →
      st1.destroyed = st.destroyed
  | [], _, _, _, h => Except.noConfusion h
  | prim :: rest, st, e, st1, h => by
    unfold processPrimitives at h
    split at h
    · exact processPrimitives_error bundles n vbs rest st e st1 h
    · split at h
      · rename_i perr hp
        cases h
        exact processPrim_error hp
      · rename_i ibOpt sub stA hp
        obtain ⟨-, -, hdA⟩ := processPrim_ok hp
        split at h
        · rename_i rerr hr
          cases h
          have hrec := processPrimitives_error bundles n vbs rest _ _ _ hr
          rw [hrec, hdA]
        · exact Except.noConfusion h

/-! ## `deferredInitCore` and `Mesh.deferredInit` lemmas -/

theorem if_bool_false {α : Sort _} (c : Bool) (h : c = false) (a b : α) :
    (if c = true then a else b) = b := by
  rw [h]
  simp

theorem deferredInitCore_ok {struct : IMeshStruct} {n : Nat} {st : GfxState}
    {rm : RenderingMesh} {st2 : GfxState}
    (h : deferredInitCore struct n st = Except.ok (rm, st2)) :
    rm.vertexBuffers.length = struct.vertexBundles.length ∧
    rm.indexBuffers.length
      = (struct.primitives.filter isIndexedRenderable).length ∧
    rm.subMeshes.map (fun s => s.primitiveMode)
      = (struct.primitives.filter isRenderable).map (fun p => p.primitiveMode) ∧
    rm.subMeshes.length = (struct.primitives.filter isRenderable).length ∧
    st2.destroyed = st.destroyed := by
  unfold deferredInitCore at h
  split at h
  · exact Except.noConfusion h
  · rename_i vbs stA hcv
    split at h
    · exact Except.noConfusion h
    · rename_i ibs subs stB hpp
      cases h
      obtain ⟨hvlen, hvd⟩ := createVertexBuffers_ok n struct.vertexBundles st _ _ hcv
      obtain ⟨hmap, hilen, hpd⟩ :=
        processPrimitives_ok struct.vertexBundles n vbs struct.primitives _ _ _ _ hpp
      refine ⟨hvlen, hilen, hmap, ?_, by rw [hpd, hvd]⟩
      have := congrArg List.length hmap
      simpa using this

theorem deferredInitCore_error {struct : IMeshStruct} {n : Nat}
    {st : GfxState} {e : MatError} {stE : GfxState}
    (h : deferredInitCore struct n st = Except.error (e, stE)) :
    stE.destroyed = st.destroyed := by
  unfold deferredInitCore at h
  split at h
  · rename_i cerr hcv
    cases h
    exact createVertexBuffers_error n struct.vertexBundles st _ _ hcv
  · rename_i vbs stA hcv
    obtain ⟨-, hvd⟩ := createVertexBuffers_ok n struct.vertexBundles st _ _ hcv
    split at h
    · rename_i perr hpp
      cases h
      have := processPrimitives_error struct.vertexBundles n vbs
        struct.primitives _ _ _ hpp
      rw [this, hvd]
    · exact Except.noConfusion h

theorem deferredInit_initialized (m : Mesh) (st : GfxState)
    (hinit : m.initialized = true) :
    m.deferredInit st = ⟨m, none, st⟩ := by
  unfold Mesh.deferredInit
  rw [hinit]
  simp

theorem deferredInit_noData (m : Mesh) (st : GfxState)
    (hinit : m.initialized = false) (hdata : m.data = none) :
    m.deferredInit st = ⟨{ m with initialized := true }, none, st⟩ := by
  unfold Mesh.deferredInit
  rw [if_bool_false _ hinit, hdata]

theorem deferredInit_reduce (m : Mesh) (n : Nat) (st : GfxState)
    (hinit : m.initialized = false) (hdata : m.data = some n) :
    m.deferredInit st = (match deferredInitCore m.struct n st with
      | Except.error (e, stE) => ⟨{ m with initialized := true }, some e, stE⟩
      | Except.ok (rm, st2) =>
        ⟨{ m with initialized := true, renderingMesh := some rm }, none, st2⟩) := by
  unfold Mesh.deferredInit
  rw [if_bool_false _ hinit, hdata]

/-! ## Buffer counts and submesh production (C1, C7) -/

/-- C1 (amended): on a successful materialization, the vertex-buffer count
equals the vertex-bundle count, but the index-buffer count equals the number
of primitives that both carry `indices` and have a non-empty
`vertexBundelIndices` — a primitive with `indices` but an empty
`vertexBundelIndices` list is skipped before its index buffer would be
allocated. -/
theorem deferredInit_buffer_counts (m : Mesh) (n : Nat) (st : GfxState)
    (hinit : m.initialized = false) (hdata : m.data = some n)
    (hok : (m.deferredInit st).error = none) :
    ∃ rm, (m.deferredInit st).mesh.renderingMesh = some rm ∧
      rm.vertexBuffers.length = m.struct.vertexBundles.length ∧
      rm.indexBuffers.length
        = (m.struct.primitives.filter isIndexedRenderable).length := by
  rw [deferredInit_reduce m n st hinit hdata] at hok ⊢
  cases hc : deferredInitCore m.struct n st with
  | error p =>
    obtain ⟨e1, stE⟩ := p
    rw [hc] at hok
    simp at hok
  | ok p =>
    obtain ⟨rm, st2⟩ := p
    obtain ⟨h1, h2, -, -, -⟩ := deferredInitCore_ok hc
    exact ⟨rm, rfl, h1, h2⟩

/-- Counterexample to C1 as stated: a primitive that carries `indices` but
has an empty `vertexBundelIndices` list produces no GPU index buffer — the
materialized mesh owns zero index buffers although one primitive carries an
`indices` field. -/
theorem indexBuffer_count_counterexample :
    (c1Mesh.deferredInit (initialGfx devAll)).error = none ∧
    (c1Mesh.deferredInit (initialGfx devAll)).mesh.renderingMesh
      = some ⟨[], [0], []⟩ ∧
    (c1Mesh.struct.primitives.filter (fun p => p.indices.isSome)).length = 1 :=
  ⟨rfl, rfl, rfl⟩

/-- Witness for C1 (amended), on a mesh with one skipped, one indexed and
one non-indexed primitive. -/
theorem deferredInit_buffer_counts_witness :
    cpMesh.initialized = false ∧ cpMesh.data = some 32 ∧
    (cpMesh.deferredInit (initialGfx devAll)).error = none ∧
    (∃ rm, (cpMesh.deferredInit (initialGfx devAll)).mesh.renderingMesh
        = some rm ∧
      rm.vertexBuffers.length = cpMesh.struct.vertexBundles.length ∧
      rm.indexBuffers.length
        = (cpMesh.struct.primitives.filter isIndexedRenderable).length) :=
  ⟨rfl, rfl, rfl,
   deferredInit_buffer_counts cpMesh 32 (initialGfx devAll) rfl rfl rfl⟩

/-- C7: a successful materialization produces exactly one submesh per
primitive with non-empty `vertexBundelIndices`, in the original primitive
order (witnessed by the sequence of `primitiveMode`s), and none for the
primitives with empty lists, which are skipped without error. -/
theorem deferredInit_submeshes (m : Mesh) (n : Nat) (st : GfxState)
    (hinit : m.initialized = false) (hdata : m.data = some n)
    (hok : (m.deferredInit st).error = none) :
    ∃ rm, (m.deferredInit st).mesh.renderingMesh = some rm ∧
      rm.subMeshes.map (fun s => s.primitiveMode)
        = (m.struct.primitives.filter isRenderable).map
            (fun p => p.primitiveMode) ∧
      rm.subMeshes.length = (m.struct.primitives.filter isRenderable).length := by
  rw [deferredInit_reduce m n st hinit hdata] at hok ⊢
  cases hc : deferredInitCore m.struct n st with
  | error p =>
    obtain ⟨e1, stE⟩ := p
    rw [hc] at hok
    simp at hok
  | ok p =>
    obtain ⟨rm, st2⟩ := p
    obtain ⟨-, -, h3, h4, -⟩ := deferredInitCore_ok hc
    exact ⟨rm, rfl, h3, h4⟩

/-- Witness for C7: same mesh as the C1 witness; the two renderable
primitives (modes 3 and 5) yield exactly two submeshes in order, the
skipped one yields none. -/
theorem deferredInit_submeshes_witness :
    cpMesh.initialized = false ∧ cpMesh.data = some 32 ∧
    (cpMesh.deferredInit (initialGfx devAll)).error = none ∧
    (∃ rm, (cpMesh.deferredInit (initialGfx devAll)).mesh.renderingMesh
        = some rm ∧
      rm.subMeshes.map (fun s => s.primitiveMode)
        = (cpMesh.struct.primitives.filter isRenderable).map
            (fun p => p.primitiveMode) ∧
      rm.subMeshes.length
        = (cpMesh.struct.primitives.filter isRenderable).length) :=
  ⟨rfl, rfl, rfl,
   deferredInit_submeshes cpMesh 32 (initialGfx devAll) rfl rfl rfl⟩

/-! ## Failure behaviour of materialization (C4, C2) -/

/-- C4 (amended): when materialization throws, the error propagates (it is
the `error` of the result), no `RenderingMesh` is stored — but the GPU
buffers already allocated during the failing pass are NOT released: the
pipeline never issues a single `GFXBuffer.destroy` call. -/
theorem deferredInit_error_no_release (m : Mesh) (st : GfxState)
    (e : MatError) (h : (m.deferredInit st).error = some e) :
    (m.deferredInit st).mesh.renderingMesh = m.renderingMesh ∧
    (m.deferredInit st).gfx.destroyed = st.destroyed := by
  cases hinit : m.initialized with
  | true =>
    rw [deferredInit_initialized m st hinit] at h
    exact Option.noConfusion h
  | false =>
    cases hdata : m.data with
    | none =>
      rw [deferredInit_noData m st hinit hdata] at h
      exact Option.noConfusion h
    | some n =>
      rw [deferredInit_reduce m n st hinit hdata] at h ⊢
      cases hc : deferredInitCore m.struct n st with
      | error p =>
        obtain ⟨e1, stE⟩ := p
        exact ⟨rfl, deferredInitCore_error hc⟩
      | ok p =>
        obtain ⟨rm, st2⟩ := p
        rw [hc] at h
        simp at h

/-- Counterexample to C4 as stated: on a device whose second `createBuffer`
call fails, the first vertex buffer has been created when the error
surfaces, and nothing has been destroyed — the allocated buffer leaks. -/
theorem device_failure_leak_counterexample :
    (c4Mesh.deferredInit (initialGfx devFirstOnly)).error
      = some MatError.deviceError ∧
    (c4Mesh.deferredInit (initialGfx devFirstOnly)).gfx.created.length = 1 ∧
    (c4Mesh.deferredInit (initialGfx devFirstOnly)).gfx.destroyed = [] :=
  ⟨rfl, rfl, rfl⟩

/-- Witness for C4 (amended), on the same failing device. -/
theorem deferredInit_error_no_release_witness :
    (c4Mesh.deferredInit (initialGfx devFirstOnly)).error
      = some MatError.deviceError ∧
    ((c4Mesh.deferredInit (initialGfx devFirstOnly)).mesh.renderingMesh
        = c4Mesh.renderingMesh ∧
      (c4Mesh.deferredInit (initialGfx devFirstOnly)).gfx.destroyed
        = (initialGfx devFirstOnly).destroyed) :=
  ⟨rfl,
   deferredInit_error_no_release c4Mesh (initialGfx devFirstOnly)
     MatError.deviceError rfl⟩

theorem createVertexBuffers_range_error (n : Nat) :
    ∀ (bundles : List IVertexBundle) (st : GfxState) (k : Nat),
      (∀ j, st.device j = true) →
      k < bundles.length →
      (∀ j, j < k → rangeInBounds n (bundles.getD j default).data) →
      ¬ rangeInBounds n (bundles.getD k default).data →
      ∃ stE, createVertexBuffers n bundles st
          = Except.error (MatError.rangeError, stE) ∧
        stE.created.length = st.created.length + (k + 1)
  | [], st, k, hdev, hk, _, _ => absurd hk (by simp)
  | vb :: rest, st, 0, hdev, hk, hbefore, hbad => by
    unfold createVertexBuffers
    cases hcb : createBuffer BufKind.vertex vb.data.length
        (jsDiv vb.data.length vb.verticesCount) st with
    | error p =>
      exfalso
      unfold createBuffer at hcb
      rw [hdev st.nextId] at hcb
      simp at hcb
    | ok p =>
      obtain ⟨id, stA⟩ := p
      obtain ⟨-, -, hclen⟩ := createBuffer_ok_state hcb
      have hv : mkView ViewKind.u8 n vb.data.offset vb.data.length
          = Except.error MatError.rangeError := by
        unfold mkView
        rw [if_neg]
        intro hcon
        refine hbad ?_
        have h2 := hcon.2
        simpa [rangeInBounds, ViewKind.elemSize] using h2
      rw [hv]
      refine ⟨stA, rfl, ?_⟩
      simpa using hclen
  | vb :: rest, st, k + 1, hdev, hk, hbefore, hbad => by
    unfold createVertexBuffers
    have hb0 : rangeInBounds n vb.data := by
      have := hbefore 0 (Nat.succ_pos k)
      simpa using this
    cases hcb : createBuffer BufKind.vertex vb.data.length
        (jsDiv vb.data.length vb.verticesCount) st with
    | error p =>
      exfalso
      unfold createBuffer at hcb
      rw [hdev st.nextId] at hcb
      simp at hcb
    | ok p =>
      obtain ⟨id, stA⟩ := p
      obtain ⟨-, hdevA, hclen⟩ := createBuffer_ok_state hcb
      have hv : mkView ViewKind.u8 n vb.data.offset vb.data.length
          = Except.ok ⟨ViewKind.u8, vb.data.offset, vb.data.length⟩ := by
        unfold mkView
        rw [if_pos]
        refine ⟨Nat.mod_one _, ?_⟩
        simpa [rangeInBounds, ViewKind.elemSize] using hb0
      rw [hv]
      have hdevU : ∀ j, (updateBuffer id ⟨ViewKind.u8, vb.data.offset,
          vb.data.length⟩ stA).device j = true := by
        intro j
        have : (updateBuffer id ⟨ViewKind.u8, vb.data.offset,
            vb.data.length⟩ stA).device = stA.device := rfl
        rw [this, hdevA]
        exact hdev j
      obtain ⟨stE, hr, hlen⟩ := createVertexBuffers_range_error n rest _ k
        hdevU (Nat.lt_of_succ_lt_succ hk)
        (fun j hj => by
          have := hbefore (j + 1) (Nat.succ_lt_succ hj)
          simpa using this)
        (by simpa using hbad)
      refine ⟨stE, ?_, ?_⟩
      · dsimp only
        rw [hr]
      · have hupd : (updateBuffer id ⟨ViewKind.u8, vb.data.offset,
            vb.data.length⟩ stA).created = stA.created := rfl
        rw [hupd] at hlen
        omega

/-- C2 (amended): when the first out-of-bounds vertex bundle is at position
`k` (all earlier ones in bounds, device healthy), materialization throws a
`RangeError` from the `Uint8Array` view constructor and stores no
`RenderingMesh` — but the error is not raised before GPU allocation: the
vertex buffers for bundles `0..k` (k+1 of them) have already been created
when it surfaces.  (And a bundle with `verticesCount = 0` does not fail at
all; see the counterexample.) -/
theorem deferredInit_range_error (m : Mesh) (n : Nat) (st : GfxState)
    (k : Nat) (hinit : m.initialized = false) (hdata : m.data = some n)
    (hdev : ∀ j, st.device j = true)
    (hk : k < m.struct.vertexBundles.length)
    (hbefore : ∀ j, j < k →
      rangeInBounds n ((m.struct.vertexBundles.getD j default).data))
    (hbad : ¬ rangeInBounds n ((m.struct.vertexBundles.getD k default).data)) :
    (m.deferredInit st).error = some MatError.rangeError ∧
    (m.deferredInit st).mesh.renderingMesh = m.renderingMesh ∧
    (m.deferredInit st).gfx.created.length = st.created.length + (k + 1) := by
  obtain ⟨stE, hcv, hlen⟩ := createVertexBuffers_range_error n
    m.struct.vertexBundles st k hdev hk hbefore hbad
  have hcore : deferredInitCore m.struct n st
      = Except.error (MatError.rangeError, stE) := by
    unfold deferredInitCore
    rw [hcv]
  rw [deferredInit_reduce m n st hinit hdata, hcore]
  exact ⟨rfl, rfl, hlen⟩

/-- Counterexample to C2 as stated: an out-of-bounds bundle does make
materialization fail, but only after its GPU vertex buffer was allocated
(1 buffer created, not 0); and a bundle with `verticesCount = 0` and
non-zero `data.length` does not fail at all (no error is raised — the
stride is merely the non-finite result of the division by zero). -/
theorem layout_error_counterexample :
    ((c2MeshBad.deferredInit (initialGfx devAll)).error
        = some MatError.rangeError ∧
      (c2MeshBad.deferredInit (initialGfx devAll)).gfx.created.length = 1) ∧
    (c2MeshZeroVC.deferredInit (initialGfx devAll)).error = none :=
  ⟨⟨rfl, rfl⟩, rfl⟩

/-- Witness for C2 (amended), on the out-of-bounds single-bundle mesh. -/
theorem deferredInit_range_error_witness :
    (¬ rangeInBounds 4
        ((c2MeshBad.struct.vertexBundles.getD 0 default).data)) ∧
    ((c2MeshBad.deferredInit (initialGfx devAll)).error
        = some MatError.rangeError ∧
      (c2MeshBad.deferredInit (initialGfx devAll)).mesh.renderingMesh
        = c2MeshBad.renderingMesh ∧
      (c2MeshBad.deferredInit (initialGfx devAll)).gfx.created.length
        = (initialGfx devAll).created.length + (0 + 1)) :=
  ⟨by decide,
   deferredInit_range_error c2MeshBad 4 (initialGfx devAll) 0 rfl rfl
     (fun j => rfl) (by decide)
     (fun j hj => absurd hj (Nat.not_lt_zero j)) (by decide)⟩

/-! ## The `assign` re-materialization gap (C3) -/

/-- C3: the code path the claim describes.  After accessing `renderingMesh`
on a buffer-less mesh and then `assign`ing a real struct/buffer pair, the
materialized flag is still set (because `_tryDestroyRenderingMesh` only
resets it when a `RenderingMesh` exists), so the next access returns no
`RenderingMesh` and allocates nothing — while the very same struct/buffer
pair on a fresh mesh materializes fine. -/
theorem assign_after_dataless_access_stuck :
    c3Assigned.1.data = some 64 ∧
    c3Assigned.1.initialized = true ∧
    c3Access.2 = none ∧
    c3Access.1.gfx.created = [] ∧
    (freshMesh.renderingMeshGet (initialGfx devAll)).2 = some ⟨[], [0], []⟩ :=
  ⟨rfl, rfl, rfl, rfl, rfl⟩
